import Mathlib

/-!
Verification of the RetroArch file-stream abstraction
(libretro-common/streams/file_stream.c, 2017 vintage).

The development shallowly embeds the per-handle state of the C code
(struct RFILE) and the operations the claims are about:
filestream_read_impl / filestream_read, filestream_write_impl /
filestream_write, filestream_seek_impl / filestream_seek,
filestream_tell_impl / filestream_tell, filestream_rewind,
filestream_get_size, filestream_getc and filestream_gets.

Machine integers are modelled as Nat / Int with explicit reduction
modulo 2^64 exactly where the C code performs unsigned 64-bit
arithmetic (mappos, mapsize and size_t lengths on the assumed LP64
platform).  The signed interpretation of a 64-bit return value
(ssize_t) is made explicit through toS64, and the sign extension of a
plain char (signed on the x86 reference platform) through toS8.

The underlying OS primitives (fread, fwrite, fseek, ftell on the
buffered FILE stream; read, write, lseek on the raw descriptor) are
external collaborators of the repository; they are modelled from the
spec as a byte list plus a cursor with the usual POSIX semantics.
-/

set_option autoImplicit false

namespace FileStream

/-- 2^64, the size of the unsigned 64-bit integer range. -/
def U64 : Nat := 2 ^ 64

/-- Reinterpretation of an unsigned 64-bit value as a signed ssize_t
(two complement), as happens when the C code returns a size_t or
uint64_t value through a function of return type ssize_t. -/
def toS64 (n : Nat) : Int :=
  if n % U64 < 2 ^ 63 then ((n % U64 : Nat) : Int) else ((n % U64 : Nat) : Int) - (U64 : Int)

/-- Sign extension of a byte stored in a plain char (signed 8-bit on
the x86 reference ABI) to int, as in the expression (int)c of
filestream_getc. -/
def toS8 (b : Nat) : Int :=
  if b % 256 < 128 then ((b % 256 : Nat) : Int) else ((b % 256 : Nat) : Int) - 256

/-- Unsigned 64-bit addition of a uint64_t and an ssize_t, as the C
expressions stream->mappos + offset and stream->mapsize + offset
compute them (the signed operand is converted to uint64_t and the sum
wraps modulo 2^64). -/
def uadd64 (a : Nat) (b : Int) : Nat :=
  (((a : Int) + b) % (U64 : Int)).toNat

/-- RFILE_HINT_UNBUFFERED, the internal hint bit (1 << 8) from
file_stream.c. -/
def RFILE_HINT_UNBUFFERED : Nat := 256

/-- Modelled from the spec: RETRO_VFS_FILE_ACCESS_HINT_MEMORY_MAP, the
caller-supplied memory-map hint bit declared in the external libretro
header.  Its numeric value is irrelevant to the code; the model only
needs a bit distinct from RFILE_HINT_UNBUFFERED. -/
def RETRO_VFS_FILE_ACCESS_HINT_MEMORY_MAP : Nat := 2

/-- EOF, the end-of-stream sentinel of the C standard library. -/
def EOF : Int := -1

/-- Modelled from the spec: the buffered FILE stream owned by a
handle, an external OS collaborator.  A byte list plus a cursor. -/
structure CFile where
  data : List Nat
  pos : Nat
deriving Repr, DecidableEq

/-- Modelled from the spec: the raw file descriptor owned by a handle,
an external OS collaborator.  A byte list plus a cursor. -/
structure CFd where
  data : List Nat
  pos : Nat
deriving Repr, DecidableEq

/-- The three whence values SEEK_SET / SEEK_CUR / SEEK_END. -/
inductive Whence where
  | seekSet
  | seekCur
  | seekEnd
deriving Repr, DecidableEq

/-- The state of struct RFILE (with HAVE_MMAP compiled in), together
with the state of the two external OS objects the handle owns.
window holds the bytes of the read-only mapped region (mapsize bytes
when the mapping is coherent); mapped models whether the mapped
pointer is non-null. -/
structure RFILE where
  error_flag : Bool
  hints : Nat
  size : Int
  mappos : Nat
  mapsize : Nat
  mapped : Bool
  window : List Nat
  fp : CFile
  fd : CFd
deriving Repr, DecidableEq

/-- Modelled from the spec: fread(s, 1, len, fp) on the buffered
stream delivers up to len bytes from the cursor and advances it;
a short count at end of data is a normal outcome. -/
def c_fread (f : CFile) (len : Nat) : List Nat × CFile :=
  let bs := (f.data.drop f.pos).take len
  (bs, { f with pos := f.pos + bs.length })

/-- Modelled from the spec: fwrite(s, 1, len, fp) stores len bytes at
the cursor (zero-filling any gap left by a seek past the end) and
advances the cursor. -/
def c_fwrite (f : CFile) (bs : List Nat) : Nat × CFile :=
  let d := f.data.take f.pos ++ List.replicate (f.pos - f.data.length) 0
      ++ bs ++ f.data.drop (f.pos + bs.length)
  (bs.length, { data := d, pos := f.pos + bs.length })

/-- Modelled from the spec: fseek(fp, offset, whence) repositions the
cursor, failing (return -1, cursor untouched) when the resulting
position would leave the representable non-negative range; on success
it returns 0. -/
def c_fseek (f : CFile) (offset : Int) (whence : Whence) : Int × CFile :=
  let base : Int :=
    match whence with
    | .seekSet => 0
    | .seekCur => (f.pos : Int)
    | .seekEnd => (f.data.length : Int)
  let newpos := base + offset
  if 0 ≤ newpos ∧ newpos < 2 ^ 63 then (0, { f with pos := newpos.toNat }) else (-1, f)

/-- Modelled from the spec: ftell(fp) reports the cursor. -/
def c_ftell (f : CFile) : Int := (f.pos : Int)

/-- Modelled from the spec: read(fd, s, len) on the raw descriptor
delivers up to len bytes from the cursor and advances it. -/
def c_read (f : CFd) (len : Nat) : List Nat × CFd :=
  let bs := (f.data.drop f.pos).take len
  (bs, { f with pos := f.pos + bs.length })

/-- Modelled from the spec: write(fd, s, len) stores len bytes at the
cursor (zero-filling any gap) and advances the cursor. -/
def c_write (f : CFd) (bs : List Nat) : Nat × CFd :=
  let d := f.data.take f.pos ++ List.replicate (f.pos - f.data.length) 0
      ++ bs ++ f.data.drop (f.pos + bs.length)
  (bs.length, { data := d, pos := f.pos + bs.length })

/-- Modelled from the spec: lseek(fd, offset, whence) repositions the
descriptor cursor, failing (return -1, cursor untouched) when the
resulting position would leave the representable non-negative range;
on success it returns the new position.  A position past end of file
is permitted. -/
def c_lseek (f : CFd) (offset : Int) (whence : Whence) : Int × CFd :=
  let base : Int :=
    match whence with
    | .seekSet => 0
    | .seekCur => (f.pos : Int)
    | .seekEnd => (f.data.length : Int)
  let newpos := base + offset
  if 0 ≤ newpos ∧ newpos < 2 ^ 63 then (newpos, { f with pos := newpos.toNat }) else (-1, f)

/-- Result of a read operation: the ssize_t return value, the bytes
delivered into the destination buffer, a flag recording whether the
memcpy of the mapped path touched any offset at or past mapsize
(an out-of-window access), and the final handle state. -/
structure ReadResult where
  ret : Int
  bytes : List Nat
  oob : Bool
  st : RFILE
deriving Repr, DecidableEq

/-- filestream_read_impl (file_stream.c lines 166-194) for a non-null
stream and buffer.  Buffered handles delegate to fread; mapped handles
fail when mappos > mapsize, otherwise clamp len by the uint64
comparison mappos + len > mapsize (the addition wrapping modulo 2^64
exactly as in C), copy from the window at the cursor and advance
mappos by the possibly clamped count (again modulo 2^64); other
unbuffered handles delegate to read(fd). -/
def filestream_read_impl (st : RFILE) (len : Nat) : ReadResult :=
  if st.hints &&& RFILE_HINT_UNBUFFERED = 0 then
    let r := c_fread st.fp len
    ⟨(r.1.length : Int), r.1, false, { st with fp := r.2 }⟩
  else if st.hints &&& RETRO_VFS_FILE_ACCESS_HINT_MEMORY_MAP ≠ 0 then
    if st.mappos > st.mapsize then ⟨-1, [], false, st⟩
    else
      let len2 := if (st.mappos + len) % U64 > st.mapsize then st.mapsize - st.mappos else len
      ⟨toS64 len2, (st.window.drop st.mappos).take len2,
        decide (st.mappos + len2 > st.mapsize),
        { st with mappos := (st.mappos + len2) % U64 }⟩
  else
    let r := c_read st.fd len
    ⟨(r.1.length : Int), r.1, false, { st with fd := r.2 }⟩

/-- filestream_read (lines 536-544) for a non-null stream: the impl
result, with error_flag set when the return equals the failure
sentinel -1. -/
def filestream_read (st : RFILE) (len : Nat) : ReadResult :=
  let r := filestream_read_impl st len
  if r.ret = -1 then { r with st := { r.st with error_flag := true } } else r

/-- filestream_write_impl (lines 561-577) for a non-null stream:
buffered handles delegate to fwrite, mapped handles always fail,
other unbuffered handles delegate to write(fd). -/
def filestream_write_impl (st : RFILE) (bs : List Nat) : Int × RFILE :=
  if st.hints &&& RFILE_HINT_UNBUFFERED = 0 then
    let r := c_fwrite st.fp bs
    ((r.1 : Int), { st with fp := r.2 })
  else if st.hints &&& RETRO_VFS_FILE_ACCESS_HINT_MEMORY_MAP ≠ 0 then
    (-1, st)
  else
    let r := c_write st.fd bs
    ((r.1 : Int), { st with fd := r.2 })

/-- filestream_write (lines 591-599) for a non-null stream, with the
error_flag update of the wrapper. -/
def filestream_write (st : RFILE) (bs : List Nat) : Int × RFILE :=
  let r := filestream_write_impl st bs
  if r.1 = -1 then (r.1, { r.2 with error_flag := true }) else r

/-- filestream_seek_impl (lines 221-274) for a non-null stream.
Buffered handles delegate to fseek.  Mapped handles (mapped pointer
non-null and memory-map hint set) reimplement the three whence cases
against mappos / mapsize with the unsigned 64-bit comparisons written
in the C code and return the new mappos as ssize_t.  Other unbuffered
handles delegate to lseek and return 0 on success. -/
def filestream_seek_impl (st : RFILE) (offset : Int) (whence : Whence) : Int × RFILE :=
  if st.hints &&& RFILE_HINT_UNBUFFERED = 0 then
    let r := c_fseek st.fp offset whence
    (r.1, { st with fp := r.2 })
  else if st.mapped ∧ st.hints &&& RETRO_VFS_FILE_ACCESS_HINT_MEMORY_MAP ≠ 0 then
    match whence with
    | .seekSet =>
        if offset < 0 then (-1, st)
        else
          let st2 := { st with mappos := offset.toNat % U64 }
          (toS64 st2.mappos, st2)
    | .seekCur =>
        let u := uadd64 st.mappos offset
        if (offset < 0 ∧ u > st.mappos) ∨ (offset > 0 ∧ u < st.mappos) then (-1, st)
        else
          let st2 := { st with mappos := u }
          (toS64 st2.mappos, st2)
    | .seekEnd =>
        let u := uadd64 st.mapsize offset
        if u < st.mapsize then (-1, st)
        else
          let st2 := { st with mappos := u }
          (toS64 st2.mappos, st2)
  else
    let r := c_lseek st.fd offset whence
    if r.1 < 0 then (-1, { st with fd := r.2 }) else (0, { st with fd := r.2 })

/-- filestream_seek (lines 497-505) for a non-null stream, with the
error_flag update of the wrapper. -/
def filestream_seek (st : RFILE) (offset : Int) (whence : Whence) : Int × RFILE :=
  let r := filestream_seek_impl st offset whence
  if r.1 = -1 then (r.1, { r.2 with error_flag := true }) else r

/-- filestream_tell_impl (lines 276-297) for a non-null stream:
buffered handles report ftell, mapped handles report mappos as
ssize_t, other unbuffered handles probe lseek(fd, 0, SEEK_CUR) and
return 0 when the probe succeeds. -/
def filestream_tell_impl (st : RFILE) : Int :=
  if st.hints &&& RFILE_HINT_UNBUFFERED = 0 then
    c_ftell st.fp
  else if st.mapped ∧ st.hints &&& RETRO_VFS_FILE_ACCESS_HINT_MEMORY_MAP ≠ 0 then
    toS64 st.mappos
  else
    if (c_lseek st.fd 0 .seekCur).1 < 0 then -1 else 0

/-- filestream_tell (lines 518-526) for a non-null stream, with the
error_flag update of the wrapper. -/
def filestream_tell (st : RFILE) : Int × RFILE :=
  let r := filestream_tell_impl st
  if r = -1 then (r, { st with error_flag := true }) else (r, st)

/-- filestream_rewind (lines 528-534) for a non-null stream: seek to
absolute position 0, then unconditionally clear error_flag. -/
def filestream_rewind (st : RFILE) : RFILE :=
  let r := filestream_seek st 0 .seekSet
  { r.2 with error_flag := false }

/-- filestream_file_size_impl (lines 214-219) for a non-null stream:
the cached size field. -/
def filestream_file_size_impl (st : RFILE) : Int := st.size

/-- filestream_get_size (lines 299-307), with the error_flag update of
the wrapper. -/
def filestream_get_size (st : RFILE) : Int × RFILE :=
  let r := filestream_file_size_impl st
  if r = -1 then (r, { st with error_flag := true }) else (r, st)

/-- filestream_getc (lines 486-494) for a non-null stream: read one
byte through the read dispatch into a plain char; when exactly one
byte was transferred return it sign-extended through (int)c, otherwise
return EOF. -/
def filestream_getc (st : RFILE) : Int × RFILE :=
  let r := filestream_read st 1
  if r.ret = 1 then (toS8 (r.bytes.headD 0), r.st) else (EOF, r.st)

/-- The loop of filestream_gets: n remaining iterations (the C loop
runs while the decremented len stays positive), the running handle
state, the characters stored so far, and the current value of the
local variable c.  Stops on EOF (without storing) or after storing a
newline; stored characters are truncated back to a byte as the
assignment *p++ = c does. -/
def getsLoop : Nat → RFILE → List Nat → Int → List Nat × Int × RFILE
  | 0, st, acc, c => (acc, c, st)
  | n + 1, st, acc, _ =>
      let r := filestream_getc st
      if r.1 = EOF then (acc, r.1, r.2)
      else
        let acc2 := acc ++ [(r.1 % 256).toNat]
        if r.1 = 10 then (acc2, r.1, r.2) else getsLoop n r.2 acc2 r.1

/-- Result of filestream_gets: ret is some () when the C function
returns the destination pointer and none when it returns NULL; buffer
is the full content the function stored into the destination,
including the terminating 0 byte. -/
structure GetsResult where
  ret : Option Unit
  buffer : List Nat
  st : RFILE
deriving Repr, DecidableEq

/-- filestream_gets (lines 462-484) for a non-null stream: iterate
getc at most len - 1 times (the size_t decrement of len wrapping
when len = 0), null-terminate, and return NULL when nothing was
stored or the last getc returned EOF. -/
def filestream_gets (st : RFILE) (len : Nat) : GetsResult :=
  let n := if len = 0 then U64 - 1 else len - 1
  let r := getsLoop n st [] 0
  { ret := if r.1 = [] ∨ r.2.1 = EOF then none else some (),
    buffer := r.1 ++ [0],
    st := r.2.2 }

/-- Result of a wrapper called with possibly null pointer arguments:
the return value, the final handle state (none models a null handle),
nullFlagWrite records that the wrapper executed the statement
stream->error_flag = true with stream == NULL, and nullBufferPassed
records that a null buffer pointer was handed to the underlying OS
write primitive. -/
structure OptCallResult where
  ret : Int
  st : Option RFILE
  nullFlagWrite : Bool
  nullBufferPassed : Bool
deriving Repr, DecidableEq

/-- filestream_read called with possibly null stream / buffer
arguments (bufPresent = false models s == NULL).  The impl guard
returns -1 for either null argument; the wrapper then executes
stream->error_flag = true whenever the return is -1, which writes
through the stream pointer even when it is NULL. -/
def filestream_read_opt (st : Option RFILE) (bufPresent : Bool) (len : Nat) : OptCallResult :=
  match st with
  | none => { ret := -1, st := none, nullFlagWrite := true, nullBufferPassed := false }
  | some h =>
      if bufPresent = false then
        { ret := -1, st := some { h with error_flag := true },
          nullFlagWrite := false, nullBufferPassed := false }
      else
        let r := filestream_read h len
        { ret := r.ret, st := some r.st, nullFlagWrite := false, nullBufferPassed := false }

/-- filestream_write called with possibly null stream / buffer
arguments.  filestream_write_impl checks only the stream for null, not
the source buffer, so a null buffer with a valid non-mapped stream is
handed directly to fwrite / write; for a null stream the wrapper again
writes error_flag through the null pointer. -/
def filestream_write_opt (st : Option RFILE) (bufPresent : Bool) (bs : List Nat) : OptCallResult :=
  match st with
  | none => { ret := -1, st := none, nullFlagWrite := true, nullBufferPassed := false }
  | some h =>
      let r := filestream_write h bs
      { ret := r.1, st := some r.2, nullFlagWrite := false,
        nullBufferPassed :=
          bufPresent = false ∧
            (h.hints &&& RFILE_HINT_UNBUFFERED = 0 ∨
              h.hints &&& RETRO_VFS_FILE_ACCESS_HINT_MEMORY_MAP = 0) }

/-- The bytes still ahead of the cursor of the strategy a handle uses:
the buffered stream data from its cursor, the mapped window from
mappos, or the descriptor data from its cursor. -/
def remBytes (st : RFILE) : List Nat :=
  if st.hints &&& RFILE_HINT_UNBUFFERED = 0 then st.fp.data.drop st.fp.pos
  else if st.hints &&& RETRO_VFS_FILE_ACCESS_HINT_MEMORY_MAP ≠ 0 then st.window.drop st.mappos
  else st.fd.data.drop st.fd.pos

/-- A handle state whose fields are mutually coherent for byte-stream
reasoning: the mapped window holds exactly mapsize bytes, mapsize is a
realistic size (below 2^63), and every byte still ahead of the cursor
is a true byte other than 0xFF (0xFF is excluded because the signed
char of filestream_getc folds it onto the EOF sentinel). -/
def GoodStream (st : RFILE) : Prop :=
  st.window.length = st.mapsize ∧ st.mapsize < 2 ^ 63 ∧ ∀ b ∈ remBytes st, b < 255

instance (st : RFILE) : Decidable (GoodStream st) := by
  unfold GoodStream
  infer_instance

/-- The pure line-gathering specification: collect at most n bytes,
cutting after (and including) the first newline. -/
def takeLine : Nat → List Nat → List Nat
  | 0, _ => []
  | _ + 1, [] => []
  | n + 1, b :: bs => if b = 10 then [b] else b :: takeLine n bs

/-- A handle with its error flag cleared; used to state that the
behaviour of every operation is independent of the incoming flag. -/
def clearFlag (st : RFILE) : RFILE := { st with error_flag := false }

end FileStream

namespace FileStream

/-- A concrete handle in the Memory-Mapped-Read strategy over the five
bytes of the text abcde: hints 258 sets both RFILE_HINT_UNBUFFERED and
the memory-map bit, the window is mapped and coherent. -/
def mapHandle : RFILE :=
  { error_flag := false, hints := 258, size := 5, mappos := 0, mapsize := 5,
    mapped := true, window := [97, 98, 99, 100, 101], fp := ⟨[], 0⟩, fd := ⟨[], 0⟩ }

/-- A concrete handle in the Unbuffered-Descriptor strategy (hints 256:
unbuffered, no memory-map bit) over a ten byte file. -/
def fdHandle : RFILE :=
  { error_flag := false, hints := 256, size := 10, mappos := 0, mapsize := 0,
    mapped := false, window := [], fp := ⟨[], 0⟩,
    fd := ⟨[1, 2, 3, 4, 5, 6, 7, 8, 9, 10], 0⟩ }

/-- A concrete handle in the Buffered strategy (hints 0) over a ten
byte file. -/
def bufHandle : RFILE :=
  { error_flag := false, hints := 0, size := 10, mappos := 0, mapsize := 0,
    mapped := false, window := [], fp := ⟨[1, 2, 3, 4, 5, 6, 7, 8, 9, 10], 0⟩,
    fd := ⟨[], 0⟩ }

end FileStream

namespace FileStream

/-- C1 counterexample: with the cursor at the end of a one byte mapped
window (mappos = mapsize = 1, a position within the window) and a
requested length of 2^64 - 1, the uint64 sum mappos + len wraps to 0,
the clamp comparison fails, and the code copies past the window
(oob = true), returns -1 instead of the clamped count 0, and moves the
cursor to 0 instead of leaving it at 1. -/
theorem c1_counterexample_eval :
    (filestream_read { mapHandle with mappos := 1, mapsize := 1, window := [65] }
        (U64 - 1)).ret = -1 ∧
    (filestream_read { mapHandle with mappos := 1, mapsize := 1, window := [65] }
        (U64 - 1)).oob = true ∧
    (filestream_read { mapHandle with mappos := 1, mapsize := 1, window := [65] }
        (U64 - 1)).st.mappos = 0 := by
  decide

/-- C2 (code_bug): on an Unbuffered-Descriptor handle at position 0, a
Current-relative seek by 5 succeeds (lseek moves the descriptor to 5
and the function returns 0, not the sentinel), yet a subsequent tell
returns 0 rather than the new position 5, because
filestream_tell_impl discards the lseek result and returns 0. -/
theorem c2_failing_input_eval :
    (filestream_seek fdHandle 5 .seekCur).1 = 0 ∧
    (filestream_seek fdHandle 5 .seekCur).2.fd.pos = 5 ∧
    (filestream_tell (filestream_seek fdHandle 5 .seekCur).2).1 = 0 ∧
    ¬ (filestream_tell (filestream_seek fdHandle 5 .seekCur).2).1 = 5 := by
  decide

/-- C3 (code_bug): on a mapped handle with mapsize = 5, the
End-relative seek by -1 has 5 + (-1) = 4 ≥ 0, so the claim requires
success with cursor 4, but the unsigned comparison
mapsize + offset < mapsize holds (4 < 5) and the code rejects the seek
leaving the cursor at 0; conversely the seek by -20 wraps below zero
(5 - 20 < 0), which the claim requires to be rejected, yet the code
accepts it and sets the cursor to 2^64 - 15. -/
theorem c3_failing_input_eval :
    (filestream_seek mapHandle (-1) .seekEnd).1 = -1 ∧
    (filestream_seek mapHandle (-1) .seekEnd).2.mappos = 0 ∧
    (0 : Int) ≤ (5 : Int) + (-1) ∧
    (5 : Int) + (-20) < 0 ∧
    (filestream_seek mapHandle (-20) .seekEnd).2.mappos = U64 - 15 := by
  decide

/-- C4 (code_bug): calling read or write with a NULL handle makes the
wrapper execute the store stream->error_flag = true through the NULL
pointer (nullFlagWrite); write with a NULL buffer hands the NULL
pointer on to the underlying write primitive; and read with a NULL
buffer on a valid handle mutates the handle by setting error_flag. -/
theorem c4_failing_input_eval :
    (filestream_read_opt none true 1).nullFlagWrite = true ∧
    (filestream_write_opt none true [7]).nullFlagWrite = true ∧
    (filestream_write_opt (some fdHandle) false [7]).nullBufferPassed = true ∧
    (filestream_read_opt (some fdHandle) false 1).st =
      some { fdHandle with error_flag := true } := by
  decide

/-- C5 (code_bug): a successful seek returns 0 rather than the new
logical position on both non-mapped strategies: on the
Unbuffered-Descriptor handle seek(Start, 5) moves the descriptor to 5
but returns 0, and tell afterwards also returns 0 instead of the
descriptor position; on the Buffered handle seek(Start, 5) moves the
stream to 5 (tell duly reports 5) but still returns 0. -/
theorem c5_failing_input_eval :
    (filestream_seek fdHandle 5 .seekSet).1 = 0 ∧
    (filestream_seek fdHandle 5 .seekSet).2.fd.pos = 5 ∧
    (filestream_tell (filestream_seek fdHandle 5 .seekSet).2).1 = 0 ∧
    (filestream_seek bufHandle 5 .seekSet).1 = 0 ∧
    (filestream_seek bufHandle 5 .seekSet).2.fp.pos = 5 ∧
    (filestream_tell (filestream_seek bufHandle 5 .seekSet).2).1 = 5 := by
  decide

/-- C6 (code_bug): on a mapped handle whose next byte is 0xFF, the
read dispatch successfully transfers exactly one byte (return 1, byte
255), yet filestream_getc stores it in a signed char and sign-extends,
returning -1 = EOF: a successfully read byte is reported as the
end-of-stream sentinel. -/
theorem c6_failing_input_eval :
    (filestream_read { mapHandle with window := [255, 66], mapsize := 2 } 1).ret = 1 ∧
    (filestream_read { mapHandle with window := [255, 66], mapsize := 2 } 1).bytes = [255] ∧
    (filestream_getc { mapHandle with window := [255, 66], mapsize := 2 }).1 = EOF := by
  decide

/-- C7 counterexample: reading a line from a one byte mapped window
holding the letter a with max_length 10 places one character (the
destination holds 97 then the terminating 0) and the very first read
is not end-of-stream, yet the function returns the no-result value
NULL, because the loop ended on a later EOF and the final test
rejects any line whose last read was EOF. -/
theorem c7_counterexample_eval :
    (filestream_gets { mapHandle with window := [97], mapsize := 1 } 10).ret = none ∧
    (filestream_gets { mapHandle with window := [97], mapsize := 1 } 10).buffer = [97, 0] ∧
    ¬ (filestream_getc { mapHandle with window := [97], mapsize := 1 }).1 = EOF := by
  decide

end FileStream

namespace FileStream

/-- Helper: a value below 2^63 is its own signed 64-bit reading. -/
theorem toS64_small {n : Nat} (h : n < 2 ^ 63) : toS64 n = (n : Int) := by
  have h2 : n < U64 := by
    have : (2 : Nat) ^ 63 < 2 ^ 64 := by norm_num
    exact lt_trans h this
  unfold toS64
  rw [Nat.mod_eq_of_lt h2, if_pos h]

/-- C1 (amended): on a Memory-Mapped-Read handle whose cursor is
within the window, provided the unsigned 64-bit sum of cursor and
requested length does not wrap (mappos + len < 2^64) and the window
size is below 2^63, read clamps the requested length to
mapsize - mappos, copies exactly that many bytes from the window at
the cursor, never touches any offset at or past mapsize, advances the
cursor by the possibly truncated count, returns that count, and
leaves the error flag alone. -/
theorem c1_mapped_read_clamps (st : RFILE) (len : Nat)
    (hu : ¬ st.hints &&& RFILE_HINT_UNBUFFERED = 0)
    (hm : st.hints &&& RETRO_VFS_FILE_ACCESS_HINT_MEMORY_MAP ≠ 0)
    (hw : st.window.length = st.mapsize)
    (hpos : st.mappos ≤ st.mapsize)
    (hnw : st.mappos + len < U64)
    (hsz : st.mapsize < 2 ^ 63) :
    (filestream_read st len).ret = ((min len (st.mapsize - st.mappos) : Nat) : Int) ∧
    (filestream_read st len).bytes =
      (st.window.drop st.mappos).take (min len (st.mapsize - st.mappos)) ∧
    (filestream_read st len).bytes.length = min len (st.mapsize - st.mappos) ∧
    (filestream_read st len).oob = false ∧
    (filestream_read st len).st.mappos = st.mappos + min len (st.mapsize - st.mappos) ∧
    (filestream_read st len).st.error_flag = st.error_flag := by
  have hmod : (st.mappos + len) % U64 = st.mappos + len := Nat.mod_eq_of_lt hnw
  have hU : (2 : Nat) ^ 63 < U64 := by norm_num [U64]
  simp only [filestream_read, filestream_read_impl]
  rw [if_neg hu, if_pos hm, if_neg (not_lt.mpr hpos), hmod]
  by_cases hc : st.mappos + len > st.mapsize
  · have hk : min len (st.mapsize - st.mappos) = st.mapsize - st.mappos := by omega
    have hlt : st.mapsize - st.mappos < 2 ^ 63 := by omega
    have hts : toS64 (st.mapsize - st.mappos) = ((st.mapsize - st.mappos : Nat) : Int) :=
      toS64_small hlt
    have hne : toS64 (st.mapsize - st.mappos) ≠ -1 := by
      rw [hts]; omega
    have hmod2 : (st.mappos + (st.mapsize - st.mappos)) % U64 =
        st.mappos + (st.mapsize - st.mappos) := by
      apply Nat.mod_eq_of_lt; omega
    rw [if_pos hc, if_neg hne]
    refine ⟨by rw [hts, hk], by rw [hk], ?_, ?_, ?_, rfl⟩
    · rw [hk]
      simp only [List.length_take, List.length_drop, hw]
      omega
    · simp only [decide_eq_false_iff_not]
      omega
    · simp only [hmod2, hk]
  · have hk : min len (st.mapsize - st.mappos) = len := by omega
    have hlt : len < 2 ^ 63 := by omega
    have hts : toS64 len = ((len : Nat) : Int) := toS64_small hlt
    have hne : toS64 len ≠ -1 := by rw [hts]; omega
    rw [if_neg hc, if_neg hne]
    refine ⟨by rw [hts, hk], by rw [hk], ?_, ?_, ?_, rfl⟩
    · rw [hk]
      simp only [List.length_take, List.length_drop, hw]
      omega
    · simp only [decide_eq_false_iff_not]
      omega
    · rw [hmod, hk]

/-- C1 witness: the amended theorem evaluated on a mapped handle over
abcde with cursor 3 and an over-long request of 10 bytes: exactly
5 - 3 = 2 bytes come back. -/
theorem c1_mapped_read_clamps_witness :
    (filestream_read { mapHandle with mappos := 3 } 10).ret = ((min 10 (5 - 3) : Nat) : Int) ∧
    (filestream_read { mapHandle with mappos := 3 } 10).bytes =
      (({ mapHandle with mappos := 3 } : RFILE).window.drop 3).take (min 10 (5 - 3)) ∧
    (filestream_read { mapHandle with mappos := 3 } 10).bytes.length = min 10 (5 - 3) ∧
    (filestream_read { mapHandle with mappos := 3 } 10).oob = false ∧
    (filestream_read { mapHandle with mappos := 3 } 10).st.mappos = 3 + min 10 (5 - 3) ∧
    (filestream_read { mapHandle with mappos := 3 } 10).st.error_flag = false :=
  c1_mapped_read_clamps { mapHandle with mappos := 3 } 10 (by decide) (by decide)
    (by decide) (by decide) (by decide) (by decide)

/-- C10 (confirmed): on a Memory-Mapped-Read handle whose cursor has
been moved strictly beyond mapsize, a read of any length returns the
failure value -1 (not a 0 byte count), sets error_flag, transfers no
bytes, and leaves the cursor unchanged. -/
theorem c10_mapped_read_beyond_window (st : RFILE) (len : Nat)
    (hu : ¬ st.hints &&& RFILE_HINT_UNBUFFERED = 0)
    (hm : st.hints &&& RETRO_VFS_FILE_ACCESS_HINT_MEMORY_MAP ≠ 0)
    (hp : st.mappos > st.mapsize) :
    (filestream_read st len).ret = -1 ∧
    (filestream_read st len).st.error_flag = true ∧
    (filestream_read st len).st.mappos = st.mappos ∧
    (filestream_read st len).bytes = [] ∧
    (filestream_read st len).ret ≠ 0 := by
  simp only [filestream_read, filestream_read_impl]
  rw [if_neg hu, if_pos hm, if_pos hp]
  simp

/-- C10 witness: a mapped handle over abcde seeked to cursor 7 > 5;
a 4 byte read fails with -1, flags the error, and keeps the cursor. -/
theorem c10_mapped_read_beyond_window_witness :
    (filestream_read { mapHandle with mappos := 7 } 4).ret = -1 ∧
    (filestream_read { mapHandle with mappos := 7 } 4).st.error_flag = true ∧
    (filestream_read { mapHandle with mappos := 7 } 4).st.mappos = 7 ∧
    (filestream_read { mapHandle with mappos := 7 } 4).bytes = [] ∧
    (filestream_read { mapHandle with mappos := 7 } 4).ret ≠ 0 :=
  c10_mapped_read_beyond_window { mapHandle with mappos := 7 } 4 (by decide) (by decide)
    (by decide)

end FileStream

namespace FileStream

/-- C9 (confirmed): on a freshly opened handle (both underlying
cursors at 0) of the Buffered or the Unbuffered-Descriptor (non
mapped) strategy, writing a byte sequence, rewinding, and reading the
same count returns exactly the originally written bytes, and the read
reports that full count. -/
theorem c9_write_rewind_read_round_trip (st : RFILE) (bs : List Nat)
    (hstrat : st.hints &&& RFILE_HINT_UNBUFFERED = 0 ∨
      (st.hints &&& RFILE_HINT_UNBUFFERED ≠ 0 ∧
        st.hints &&& RETRO_VFS_FILE_ACCESS_HINT_MEMORY_MAP = 0))
    (hfp : st.fp.pos = 0) (hfd : st.fd.pos = 0) :
    (filestream_read (filestream_rewind (filestream_write st bs).2) bs.length).bytes = bs ∧
    (filestream_read (filestream_rewind (filestream_write st bs).2) bs.length).ret =
      (bs.length : Int) := by
  have hlen : ((bs.length : Nat) : Int) ≠ -1 := by omega
  have hp63 : ((0 : Int) < 2 ^ 63) := by norm_num
  obtain ⟨e, h, sz, mp, ms, m, w, ⟨fpd, fpp⟩, ⟨fdd, fdp⟩⟩ := st
  simp only at hfp hfd
  subst hfp hfd
  rcases hstrat with hb | ⟨hu, hm⟩
  · simp only at hb
    simp [filestream_write, filestream_write_impl, c_fwrite, filestream_rewind,
      filestream_seek, filestream_seek_impl, c_fseek, filestream_read,
      filestream_read_impl, c_fread, hb, hlen, hp63, List.take_left]
  · simp only at hu hm
    simp [filestream_write, filestream_write_impl, c_write, filestream_rewind,
      filestream_seek, filestream_seek_impl, c_lseek, filestream_read,
      filestream_read_impl, c_read, hu, hm, hlen, hp63, List.take_left]

/-- C9 witness: the round trip evaluated on the concrete Buffered
handle with the bytes 9, 8, 7. -/
theorem c9_write_rewind_read_round_trip_witness :
    (filestream_read (filestream_rewind (filestream_write bufHandle [9, 8, 7]).2) 3).bytes
        = [9, 8, 7] ∧
    (filestream_read (filestream_rewind (filestream_write bufHandle [9, 8, 7]).2) 3).ret
        = (3 : Int) := by
  have h := c9_write_rewind_read_round_trip bufHandle [9, 8, 7]
    (Or.inl (by decide)) (by decide) (by decide)
  simpa using h

end FileStream

namespace FileStream

/-- Helper: filestream_read_impl never touches error_flag. -/
theorem filestream_read_impl_flag (st : RFILE) (len : Nat) :
    (filestream_read_impl st len).st.error_flag = st.error_flag := by
  unfold filestream_read_impl
  repeat' split
  all_goals rfl

/-- Helper: filestream_write_impl never touches error_flag. -/
theorem filestream_write_impl_flag (st : RFILE) (bs : List Nat) :
    (filestream_write_impl st bs).2.error_flag = st.error_flag := by
  unfold filestream_write_impl
  repeat' split
  all_goals rfl

/-- Helper: filestream_seek_impl never touches error_flag. -/
theorem filestream_seek_impl_flag (st : RFILE) (offset : Int) (whence : Whence) :
    (filestream_seek_impl st offset whence).2.error_flag = st.error_flag := by
  by_cases h1 : st.hints &&& RFILE_HINT_UNBUFFERED = 0
  · simp [filestream_seek_impl, h1]
  · by_cases h2 : st.mapped = true ∧ st.hints &&& RETRO_VFS_FILE_ACCESS_HINT_MEMORY_MAP ≠ 0
    · cases whence
      · by_cases h3 : offset < 0 <;> simp [filestream_seek_impl, h1, h2, h3]
      · by_cases h3 : (offset < 0 ∧ uadd64 st.mappos offset > st.mappos) ∨
            (offset > 0 ∧ uadd64 st.mappos offset < st.mappos) <;>
          simp [filestream_seek_impl, h1, h2, h3]
      · by_cases h3 : uadd64 st.mapsize offset < st.mapsize <;>
          simp [filestream_seek_impl, h1, h2, h3]
    · by_cases h3 : (c_lseek st.fd offset whence).1 < 0 <;>
        simp [filestream_seek_impl, h1, h2, h3]

/-- Helper: the read wrapper forwards the impl return value. -/
theorem filestream_read_ret (st : RFILE) (len : Nat) :
    (filestream_read st len).ret = (filestream_read_impl st len).ret := by
  unfold filestream_read
  dsimp only
  split <;> rfl

/-- Helper: the write wrapper forwards the impl return value. -/
theorem filestream_write_ret (st : RFILE) (bs : List Nat) :
    (filestream_write st bs).1 = (filestream_write_impl st bs).1 := by
  unfold filestream_write
  dsimp only
  split <;> rfl

/-- Helper: the seek wrapper forwards the impl return value. -/
theorem filestream_seek_ret (st : RFILE) (offset : Int) (whence : Whence) :
    (filestream_seek st offset whence).1 = (filestream_seek_impl st offset whence).1 := by
  unfold filestream_seek
  dsimp only
  split <;> rfl

/-- Helper: filestream_read_impl reads no field of the incoming error
flag and only copies it into the outgoing state. -/
theorem filestream_read_impl_flag_indep (st : RFILE) (b : Bool) (len : Nat) :
    filestream_read_impl { st with error_flag := b } len =
      { filestream_read_impl st len with
          st := { (filestream_read_impl st len).st with error_flag := b } } := by
  obtain ⟨e, h, sz, mp, ms, m, w, fp, fd⟩ := st
  by_cases h1 : h &&& RFILE_HINT_UNBUFFERED = 0
  · simp [filestream_read_impl, h1]
  · by_cases h2 : h &&& RETRO_VFS_FILE_ACCESS_HINT_MEMORY_MAP ≠ 0
    · by_cases h3 : mp > ms
      · simp [filestream_read_impl, h1, h2, h3]
      · simp [filestream_read_impl, h1, h2, h3]
    · simp [filestream_read_impl, h1, h2]

/-- Helper: filestream_write_impl is independent of the incoming error
flag. -/
theorem filestream_write_impl_flag_indep (st : RFILE) (b : Bool) (bs : List Nat) :
    filestream_write_impl { st with error_flag := b } bs =
      ((filestream_write_impl st bs).1,
        { (filestream_write_impl st bs).2 with error_flag := b }) := by
  obtain ⟨e, h, sz, mp, ms, m, w, fp, fd⟩ := st
  by_cases h1 : h &&& RFILE_HINT_UNBUFFERED = 0
  · simp [filestream_write_impl, h1]
  · by_cases h2 : h &&& RETRO_VFS_FILE_ACCESS_HINT_MEMORY_MAP ≠ 0
    · simp [filestream_write_impl, h1, h2]
    · simp [filestream_write_impl, h1, h2]

/-- Helper: filestream_seek_impl is independent of the incoming error
flag. -/
theorem filestream_seek_impl_flag_indep (st : RFILE) (b : Bool) (offset : Int)
    (whence : Whence) :
    filestream_seek_impl { st with error_flag := b } offset whence =
      ((filestream_seek_impl st offset whence).1,
        { (filestream_seek_impl st offset whence).2 with error_flag := b }) := by
  obtain ⟨e, h, sz, mp, ms, m, w, fp, fd⟩ := st
  by_cases h1 : h &&& RFILE_HINT_UNBUFFERED = 0
  · simp [filestream_seek_impl, h1]
  · by_cases h2 : m = true ∧ h &&& RETRO_VFS_FILE_ACCESS_HINT_MEMORY_MAP ≠ 0
    · cases whence
      · by_cases h3 : offset < 0 <;> simp [filestream_seek_impl, h1, h2, h3]
      · by_cases h3 : (offset < 0 ∧ uadd64 mp offset > mp) ∨
            (offset > 0 ∧ uadd64 mp offset < mp) <;>
          simp [filestream_seek_impl, h1, h2, h3]
      · by_cases h3 : uadd64 ms offset < ms <;> simp [filestream_seek_impl, h1, h2, h3]
    · by_cases h3 : (c_lseek fd offset whence).1 < 0 <;>
        simp [filestream_seek_impl, h1, h2, h3]

/-- Helper: filestream_tell_impl is independent of the incoming error
flag. -/
theorem filestream_tell_impl_flag_indep (st : RFILE) (b : Bool) :
    filestream_tell_impl { st with error_flag := b } = filestream_tell_impl st := by
  obtain ⟨e, h, sz, mp, ms, m, w, fp, fd⟩ := st
  rfl

end FileStream

namespace FileStream

/-- C8 (confirmed): error_flag is sticky across the core handle
operations.  Each of read, write, seek, tell and get-size leaves the
flag set exactly when its return value is the failure sentinel -1 or
the flag was already set (so it is set by every failing operation and
cleared by none of them), rewind unconditionally clears it, and a set
flag never prevents an operation from executing: the return value,
the transferred bytes and the rest of the handle state are
independent of the incoming flag. -/
theorem c8_error_flag_sticky :
    (∀ st len, ((filestream_read st len).st.error_flag = true ↔
        ((filestream_read st len).ret = -1 ∨ st.error_flag = true))) ∧
    (∀ st bs, ((filestream_write st bs).2.error_flag = true ↔
        ((filestream_write st bs).1 = -1 ∨ st.error_flag = true))) ∧
    (∀ st offset whence, ((filestream_seek st offset whence).2.error_flag = true ↔
        ((filestream_seek st offset whence).1 = -1 ∨ st.error_flag = true))) ∧
    (∀ st, ((filestream_tell st).2.error_flag = true ↔
        ((filestream_tell st).1 = -1 ∨ st.error_flag = true))) ∧
    (∀ st, ((filestream_get_size st).2.error_flag = true ↔
        ((filestream_get_size st).1 = -1 ∨ st.error_flag = true))) ∧
    (∀ st, (filestream_rewind st).error_flag = false) ∧
    (∀ st (b : Bool) len, (filestream_read { st with error_flag := b } len).ret =
          (filestream_read st len).ret ∧
        (filestream_read { st with error_flag := b } len).bytes =
          (filestream_read st len).bytes ∧
        clearFlag (filestream_read { st with error_flag := b } len).st =
          clearFlag (filestream_read st len).st) ∧
    (∀ st (b : Bool) bs, (filestream_write { st with error_flag := b } bs).1 =
          (filestream_write st bs).1 ∧
        clearFlag (filestream_write { st with error_flag := b } bs).2 =
          clearFlag (filestream_write st bs).2) ∧
    (∀ st (b : Bool) offset whence,
        (filestream_seek { st with error_flag := b } offset whence).1 =
          (filestream_seek st offset whence).1 ∧
        clearFlag (filestream_seek { st with error_flag := b } offset whence).2 =
          clearFlag (filestream_seek st offset whence).2) ∧
    (∀ st (b : Bool), (filestream_tell { st with error_flag := b }).1 =
        (filestream_tell st).1) := by
  refine ⟨?_, ?_, ?_, ?_, ?_, ?_, ?_, ?_, ?_, ?_⟩
  · intro st len
    unfold filestream_read
    dsimp only
    by_cases hr : (filestream_read_impl st len).ret = -1
    · simp [hr]
    · simp [hr, filestream_read_impl_flag]
  · intro st bs
    unfold filestream_write
    dsimp only
    by_cases hr : (filestream_write_impl st bs).1 = -1
    · simp [hr]
    · simp [hr, filestream_write_impl_flag]
  · intro st offset whence
    unfold filestream_seek
    dsimp only
    by_cases hr : (filestream_seek_impl st offset whence).1 = -1
    · simp [hr]
    · simp [hr, filestream_seek_impl_flag]
  · intro st
    unfold filestream_tell
    dsimp only
    by_cases hr : filestream_tell_impl st = -1 <;> simp [hr]
  · intro st
    unfold filestream_get_size
    dsimp only
    by_cases hr : filestream_file_size_impl st = -1 <;> simp [hr]
  · intro st
    rfl
  · intro st b len
    unfold filestream_read
    dsimp only
    rw [filestream_read_impl_flag_indep]
    dsimp only
    by_cases hr : (filestream_read_impl st len).ret = -1 <;> simp [hr, clearFlag]
  · intro st b bs
    unfold filestream_write
    dsimp only
    rw [filestream_write_impl_flag_indep]
    dsimp only
    by_cases hr : (filestream_write_impl st bs).1 = -1 <;> simp [hr, clearFlag]
  · intro st b offset whence
    unfold filestream_seek
    dsimp only
    rw [filestream_seek_impl_flag_indep]
    dsimp only
    by_cases hr : (filestream_seek_impl st offset whence).1 = -1 <;> simp [hr, clearFlag]
  · intro st b
    unfold filestream_tell
    dsimp only
    rw [filestream_tell_impl_flag_indep]
    by_cases hr : filestream_tell_impl st = -1 <;> simp [hr]

end FileStream

namespace FileStream

/-- Helper: the signed char reading of a byte below 255 is never the
EOF sentinel. -/
theorem toS8_ne_EOF {b : Nat} (h : b < 255) : toS8 b ≠ EOF := by
  unfold toS8 EOF
  rw [Nat.mod_eq_of_lt (by omega)]
  split <;> omega

/-- Helper: truncating the sign-extended byte back to a byte (the
store *p++ = c) recovers the byte. -/
theorem toS8_mod {b : Nat} (h : b < 256) : ((toS8 b) % 256).toNat = b := by
  unfold toS8
  rw [Nat.mod_eq_of_lt h]
  split <;> omega

/-- Helper: the sign-extended byte equals the newline code 10 exactly
when the byte is 10. -/
theorem toS8_eq_ten_iff {b : Nat} (h : b < 255) : toS8 b = 10 ↔ b = 10 := by
  unfold toS8
  rw [Nat.mod_eq_of_lt (by omega)]
  split <;> omega

end FileStream

namespace FileStream

/-- Helper: read never changes the window, the sizes, the hints or the
underlying data, only cursors and the error flag. -/
theorem filestream_read_skeleton (st : RFILE) (len : Nat) :
    (filestream_read st len).st.window = st.window ∧
    (filestream_read st len).st.mapsize = st.mapsize ∧
    (filestream_read st len).st.hints = st.hints ∧
    (filestream_read st len).st.fp.data = st.fp.data ∧
    (filestream_read st len).st.fd.data = st.fd.data := by
  unfold filestream_read filestream_read_impl c_fread c_read
  dsimp only
  repeat' split
  all_goals simp

/-- Helper: the state getc leaves behind is exactly the state of the
underlying one byte read. -/
theorem filestream_getc_state (st : RFILE) :
    (filestream_getc st).2 = (filestream_read st 1).st := by
  unfold filestream_getc
  dsimp only
  split <;> rfl

/-- Helper: one getc step, uniformly over the three strategies.  On a
coherent handle it returns EOF exactly when no bytes remain ahead of
the cursor and otherwise the sign-extended head byte; the bytes ahead
become the tail, and coherence is preserved. -/
theorem getc_behavior (st : RFILE) (hg : GoodStream st) :
    ((filestream_getc st).1 = match remBytes st with
      | [] => EOF
      | b :: _ => toS8 b) ∧
    remBytes (filestream_getc st).2 = (remBytes st).tail ∧
    GoodStream (filestream_getc st).2 := by
  obtain ⟨hw, hms, hb⟩ := hg
  have hsk := filestream_read_skeleton st 1
  have hst := filestream_getc_state st
  have main : ((filestream_getc st).1 = match remBytes st with
      | [] => EOF
      | b :: _ => toS8 b) ∧
      remBytes (filestream_getc st).2 = (remBytes st).tail := by
    by_cases h1 : st.hints &&& RFILE_HINT_UNBUFFERED = 0
    · have hrem : remBytes st = st.fp.data.drop st.fp.pos := by simp [remBytes, h1]
      cases hd : st.fp.data.drop st.fp.pos with
      | nil =>
          rw [hrem, hd]
          constructor
          · simp [filestream_getc, filestream_read, filestream_read_impl, c_fread, h1, hd]
          · simp [filestream_getc, filestream_read, filestream_read_impl, c_fread,
              remBytes, h1, hd]
      | cons b bs2 =>
          have hbb : b < 255 := by
            apply hb
            rw [hrem, hd]
            simp
          have htail : st.fp.data.drop (st.fp.pos + 1) = bs2 := by
            rw [← List.tail_drop, hd]
            rfl
          rw [hrem, hd]
          constructor
          · simp [filestream_getc, filestream_read, filestream_read_impl, c_fread, h1, hd]
          · simp [filestream_getc, filestream_read, filestream_read_impl, c_fread,
              remBytes, List.tail_cons, h1, hd, htail]
    · by_cases h2 : st.hints &&& RETRO_VFS_FILE_ACCESS_HINT_MEMORY_MAP ≠ 0
      · have hrem : remBytes st = st.window.drop st.mappos := by simp [remBytes, h1, h2]
        by_cases h3 : st.mappos > st.mapsize
        · have hd : st.window.drop st.mappos = [] := by
            apply List.drop_eq_nil_of_le
            omega
          rw [hrem, hd]
          constructor
          · simp [filestream_getc, filestream_read, filestream_read_impl, h1, h2, h3]
          · simp [filestream_getc, filestream_read, filestream_read_impl,
              remBytes, h1, h2, h3, hd]
        · have hmod1 : (st.mappos + 1) % U64 = st.mappos + 1 := by
            apply Nat.mod_eq_of_lt
            simp only [U64]
            omega
          by_cases h4 : st.mappos = st.mapsize
          · have hd : st.window.drop st.mappos = [] := by
              apply List.drop_eq_nil_of_le
              omega
            have hcl : st.mappos + 1 > st.mapsize := by omega
            have hsub : st.mapsize - st.mappos = 0 := by omega
            have ht0 : toS64 0 = (0 : Int) := toS64_small (by norm_num)
            have hmod0 : st.mappos % U64 = st.mappos := by
              apply Nat.mod_eq_of_lt
              simp only [U64]
              omega
            rw [hrem, hd]
            constructor
            · simp [filestream_getc, filestream_read, filestream_read_impl, h1, h2, h3,
                hmod1, hcl, hsub, ht0]
            · simp [filestream_getc, filestream_read, filestream_read_impl,
                remBytes, h1, h2, h3, hmod1, hcl, hsub, ht0, hmod0, hd]
          · have hlt : st.mappos < st.mapsize := by omega
            cases hd : st.window.drop st.mappos with
            | nil =>
                exfalso
                have := List.drop_eq_nil_iff.mp hd
                omega
            | cons b bs2 =>
                have hbb : b < 255 := by
                  apply hb
                  rw [hrem, hd]
                  simp
                have hcl : ¬ st.mappos + 1 > st.mapsize := by omega
                have htail : st.window.drop (st.mappos + 1) = bs2 := by
                  rw [← List.tail_drop, hd]
                  rfl
                have ht1 : toS64 1 = (1 : Int) := toS64_small (by norm_num)
                rw [hrem, hd]
                constructor
                · simp [filestream_getc, filestream_read, filestream_read_impl, h1, h2,
                    h3, hmod1, hcl, ht1, hd]
                · simp [filestream_getc, filestream_read, filestream_read_impl,
                    remBytes, List.tail_cons, h1, h2, h3, hmod1, hcl, ht1, hd, htail]
      · have hrem : remBytes st = st.fd.data.drop st.fd.pos := by simp [remBytes, h1, h2]
        cases hd : st.fd.data.drop st.fd.pos with
        | nil =>
            rw [hrem, hd]
            constructor
            · simp [filestream_getc, filestream_read, filestream_read_impl, c_read,
                h1, h2, hd]
            · simp [filestream_getc, filestream_read, filestream_read_impl, c_read,
                remBytes, h1, h2, hd]
        | cons b bs2 =>
            have hbb : b < 255 := by
              apply hb
              rw [hrem, hd]
              simp
            have htail : st.fd.data.drop (st.fd.pos + 1) = bs2 := by
              rw [← List.tail_drop, hd]
              rfl
            rw [hrem, hd]
            constructor
            · simp [filestream_getc, filestream_read, filestream_read_impl, c_read,
                h1, h2, hd]
            · simp [filestream_getc, filestream_read, filestream_read_impl, c_read,
                remBytes, List.tail_cons, h1, h2, hd, htail]
  refine ⟨main.1, main.2, ?_, ?_, ?_⟩
  · rw [hst, (filestream_read_skeleton st 1).1, (filestream_read_skeleton st 1).2.1]
    exact hw
  · rw [hst, (filestream_read_skeleton st 1).2.1]
    exact hms
  · intro x hx
    rw [main.2] at hx
    exact hb x (List.mem_of_mem_tail hx)

end FileStream

namespace FileStream

/-- Helper: takeLine collects at most n characters. -/
theorem takeLine_length (n : Nat) (xs : List Nat) : (takeLine n xs).length ≤ n := by
  induction n generalizing xs with
  | zero => simp [takeLine]
  | succ n ih =>
      cases xs with
      | nil => simp [takeLine]
      | cons b bs =>
          by_cases hb : b = 10
          · simp [takeLine, hb]
          · simp only [takeLine, if_neg hb, List.length_cons]
            have := ih bs
            omega

/-- Helper: takeLine yields nothing exactly when the budget is zero or
the input is empty. -/
theorem takeLine_eq_nil_iff (n : Nat) (xs : List Nat) :
    takeLine n xs = [] ↔ n = 0 ∨ xs = [] := by
  match n, xs with
  | 0, xs => simp [takeLine]
  | n + 1, [] => simp [takeLine]
  | n + 1, b :: bs =>
      simp only [takeLine]
      split <;> simp

/-- Helper: the gets loop gathers takeLine of the bytes ahead of the
cursor, and the final value of the local c is EOF exactly when the
bytes ran out strictly before the budget without a newline among
them. -/
theorem getsLoop_spec (n : Nat) :
    ∀ (st : RFILE) (acc : List Nat) (c : Int), GoodStream st → c ≠ EOF →
      (getsLoop n st acc c).1 = acc ++ takeLine n (remBytes st) ∧
      ((getsLoop n st acc c).2.1 = EOF ↔
        ((remBytes st).length < n ∧ 10 ∉ remBytes st)) := by
  induction n with
  | zero =>
      intro st acc c hg hc
      simp [getsLoop, takeLine, hc]
  | succ n ih =>
      intro st acc c hg hc
      obtain ⟨hval, hrem, hg2⟩ := getc_behavior st hg
      cases hd : remBytes st with
      | nil =>
          rw [hd] at hval hrem
          have hvalE : (filestream_getc st).1 = EOF := hval.trans rfl
          simp only [getsLoop]
          rw [hvalE]
          simp [takeLine, hd]
      | cons b bs =>
          rw [hd] at hval hrem
          have hvalB : (filestream_getc st).1 = toS8 b := hval.trans rfl
          have hrem2 : remBytes (filestream_getc st).2 = bs := hrem.trans rfl
          have hgparts := hg
          obtain ⟨-, -, hbytes⟩ := hgparts
          have hb255 : b < 255 := hbytes b (by rw [hd]; simp)
          have hne : toS8 b ≠ EOF := toS8_ne_EOF hb255
          simp only [getsLoop]
          rw [hvalB, if_neg hne]
          by_cases hbn : b = 10
          · subst hbn
            have h10 : toS8 10 = (10 : Int) := by decide
            rw [h10]
            simp [takeLine, hd, EOF]
          · have hne10 : ¬ toS8 b = (10 : Int) := fun h => hbn ((toS8_eq_ten_iff hb255).mp h)
            rw [if_neg hne10]
            have hmod : ((toS8 b) % 256).toNat = b := toS8_mod (by omega)
            rw [hmod]
            obtain ⟨ih1, ih2⟩ := ih (filestream_getc st).2 (acc ++ [b]) (toS8 b) hg2 hne
            rw [hrem2] at ih1 ih2
            constructor
            · rw [ih1]
              simp [takeLine, hbn]
            · rw [ih2]
              simp only [List.length_cons, List.mem_cons]
              constructor
              · rintro ⟨hl, hm⟩
                refine ⟨by omega, ?_⟩
                rintro (h | h)
                · exact hbn h.symm
                · exact hm h
              · rintro ⟨hl, hm⟩
                exact ⟨by omega, fun h => hm (Or.inr h)⟩

/-- C7 (amended): on a coherent handle (no 0xFF among the bytes ahead,
see the read-one-character defect) and max_length ≥ 1, read-line
stores exactly the characters up to max_length - 1, up to and
including a newline, or up to end-of-stream, followed by the
terminating 0, all fitting in max_length bytes; and it returns the
no-result value exactly when zero characters were placed or the LAST
read hit end-of-stream - so a line that placed characters but ended at
end-of-stream without a newline is also reported as no-result. -/
theorem c7_amended (st : RFILE) (len : Nat) (hlen : 1 ≤ len) (hg : GoodStream st) :
    (filestream_gets st len).buffer = takeLine (len - 1) (remBytes st) ++ [0] ∧
    (filestream_gets st len).buffer.length ≤ len ∧
    ((filestream_gets st len).ret = none ↔
      (len = 1 ∨ remBytes st = [] ∨
        ((remBytes st).length < len - 1 ∧ 10 ∉ remBytes st))) := by
  have hzero : ¬ len = 0 := by omega
  obtain ⟨h1, h2⟩ := getsLoop_spec (len - 1) st [] 0 hg (by decide)
  unfold filestream_gets
  dsimp only
  rw [if_neg hzero]
  refine ⟨?_, ?_, ?_⟩
  · rw [h1]
    simp
  · rw [h1]
    simp only [List.nil_append, List.length_append, List.length_cons, List.length_nil]
    have := takeLine_length (len - 1) (remBytes st)
    omega
  · have hiff : ((if ((getsLoop (len - 1) st [] 0).1 = [] ∨
        (getsLoop (len - 1) st [] 0).2.1 = EOF) then (none : Option Unit) else some ()) =
          none) ↔
        ((getsLoop (len - 1) st [] 0).1 = [] ∨ (getsLoop (len - 1) st [] 0).2.1 = EOF) := by
      split <;> simp_all
    rw [hiff, h1, h2]
    simp only [List.nil_append]
    rw [takeLine_eq_nil_iff]
    constructor
    · rintro ((h | h) | h)
      · left
        omega
      · right
        left
        exact h
      · right
        right
        exact h
    · rintro (h | h | h)
      · left
        left
        omega
      · left
        right
        exact h
      · right
        exact h

/-- C7 witness: the amended theorem evaluated on the mapped handle
over abcde with max_length 3: the destination receives ab then the
terminator, and the result is not no-result. -/
theorem c7_amended_witness :
    (filestream_gets mapHandle 3).buffer = takeLine (3 - 1) (remBytes mapHandle) ++ [0] ∧
    (filestream_gets mapHandle 3).buffer.length ≤ 3 ∧
    ((filestream_gets mapHandle 3).ret = none ↔
      (3 = 1 ∨ remBytes mapHandle = [] ∨
        ((remBytes mapHandle).length < 3 - 1 ∧ 10 ∉ remBytes mapHandle))) :=
  c7_amended mapHandle 3 (by norm_num) (by decide)

end FileStream
